import Mathlib

/-!
Verification of the asset-preservation digital-twin core against its
natural-language specification.

The development shallowly embeds the Python sources:
  * `path_planning.py`            (`AdaptivePathPlanner`)
  * `anomaly_detection.py`        (`AnomalyDetector`)
  * `digital_twin_engine.py`      (`DigitalTwinEngine`)
  * `backend/src/processing/stress_calculator.py` (`StressCalculator`)
  * `backend/src/ml/feature_engineering.py`       (`UniversalFeatureExtractor`)

Floating-point values are embedded as rationals where the code only does
field arithmetic and comparisons (path planner, risk-tier thresholds), and
as reals where transcendental functions appear (stress model, feature
pipeline).  Missing sensor values (`None` / `NaN`) are embedded as
`Option` cells.
-/

/-! ### Path planner (`path_planning.py`, class `AdaptivePathPlanner`) -/

/-- A 3-D waypoint `(x, y, z)`; `z` is the altitude. -/
abbrev Point3 : Type := ℚ × ℚ × ℚ

/-- Embedding of `np.linspace(a, b, num)`: `num` evenly spaced samples from
`a` to `b`, endpoints included (for `num = 1` numpy returns `[a]`, which the
`(num - 1) = 0` denominator convention reproduces). -/
def linspace (a b : ℚ) (num : ℕ) : List ℚ :=
  (List.range num).map (fun i : ℕ => a + (b - a) * (i : ℚ) / (num - 1 : ℚ))

/-- Embedding of `np.column_stack([xs, ys, zs])` for three equally long
coordinate lists. -/
def columnStack3 (xs ys zs : List ℚ) : List Point3 :=
  List.zipWith (fun x yz => (x, yz)) xs (List.zipWith (fun y z => (y, z)) ys zs)

/-- Embedding of `AdaptivePathPlanner.plan_initial_path` (lines 25-49):
20 evenly spaced waypoints on the straight line from `start` to `stop`. -/
def planInitialPath (start stop : Point3) : List Point3 :=
  columnStack3 (linspace start.1 stop.1 20) (linspace start.2.1 stop.2.1 20)
    (linspace start.2.2 stop.2.2 20)

/-- Embedding of `AdaptivePathPlanner._emergency_landing_path` (lines 83-96):
10 waypoints from the current position to `(x+5, y+5, 0)`, descending
linearly to the ground. -/
def emergencyLandingPath (currentPosition : Point3) : List Point3 :=
  let x := currentPosition.1
  let y := currentPosition.2.1
  let z := currentPosition.2.2
  columnStack3 (linspace x (x + 5) 10) (linspace y (y + 5) 10) (linspace z 0 10)

/-- Embedding of `xs[start:start+len(vals)] = vals`, the numpy slice
assignment used on the altitude profile of the conservative path. -/
def setSlice (xs : List ℚ) (start : ℕ) (vals : List ℚ) : List ℚ :=
  xs.take start ++ vals ++ xs.drop (start + vals.length)

/-- Embedding of `AdaptivePathPlanner._conservative_path` (lines 98-122):
25 waypoints toward the destination whose altitude profile is
`safe_altitude = min(z_curr * 0.7, z_dest)` in the middle, with the first
and last 5 altitudes overwritten by linear ramps (the single-index
assignments to `z_path[0]` and `z_path[-1]` happen before the slice
assignments, exactly as in the source). -/
def conservativePath (currentPosition destination : Point3) : List Point3 :=
  let zCurr := currentPosition.2.2
  let zDest := destination.2.2
  let safeAltitude := min (zCurr * 0.7) zDest
  let zPath0 := List.replicate 25 safeAltitude
  let zPath1 := zPath0.set 0 zCurr
  let zPath2 := zPath1.set 24 zDest
  let zPath3 := setSlice zPath2 0 (linspace zCurr safeAltitude 5)
  let zPath4 := setSlice zPath3 20 (linspace safeAltitude zDest 5)
  columnStack3 (linspace currentPosition.1 destination.1 25)
    (linspace currentPosition.2.1 destination.2.1 25) zPath4

/-- Embedding of `AdaptivePathPlanner._cautious_path` (lines 124-133):
30 evenly spaced waypoints on the straight line to the destination. -/
def cautiousPath (currentPosition destination : Point3) : List Point3 :=
  columnStack3 (linspace currentPosition.1 destination.1 30)
    (linspace currentPosition.2.1 destination.2.1 30)
    (linspace currentPosition.2.2 destination.2.2 30)

/-- Embedding of `AdaptivePathPlanner._optimal_path` (lines 135-144):
20 evenly spaced waypoints on the straight line to the destination. -/
def optimalPath (currentPosition destination : Point3) : List Point3 :=
  columnStack3 (linspace currentPosition.1 destination.1 20)
    (linspace currentPosition.2.1 destination.2.1 20)
    (linspace currentPosition.2.2 destination.2.2 20)

/-- Embedding of `AdaptivePathPlanner.optimize_trajectory` (lines 51-81).
The `riskAssessment` argument models the Python risk-assessment dict
restricted to its `risk_level` key: `none` embeds a dict without the key,
so `riskAssessment.getD "LOW"` embeds
`risk_assessment.get('risk_level', 'LOW')`. -/
def optimizeTrajectory (currentPosition : Point3) (riskAssessment : Option String)
    (destination : Point3) : List Point3 :=
  let riskLevelStr := riskAssessment.getD "LOW"
  if riskLevelStr = "CRITICAL" then emergencyLandingPath currentPosition
  else if riskLevelStr = "HIGH" then conservativePath currentPosition destination
  else if riskLevelStr = "MEDIUM" then cautiousPath currentPosition destination
  else optimalPath currentPosition destination

lemma linspace_length (a b : ℚ) (num : ℕ) : (linspace a b num).length = num := by
  simp [linspace]

lemma columnStack3_length (xs ys zs : List ℚ) :
    (columnStack3 xs ys zs).length = min xs.length (min ys.length zs.length) := by
  simp [columnStack3]

lemma columnStack3_map (f g h : ℕ → ℚ) (l : List ℕ) :
    columnStack3 (l.map f) (l.map g) (l.map h) = l.map (fun i => (f i, g i, h i)) := by
  induction l with
  | nil => rfl
  | cons a t ih => simp_all [columnStack3]

lemma optimalPath_closed_form (cur dest : Point3) :
    optimalPath cur dest = (List.range 20).map (fun i : ℕ =>
      (cur.1 + (dest.1 - cur.1) * (i : ℚ) / 19,
       cur.2.1 + (dest.2.1 - cur.2.1) * (i : ℚ) / 19,
       cur.2.2 + (dest.2.2 - cur.2.2) * (i : ℚ) / 19)) := by
  rw [optimalPath, linspace, linspace, linspace, columnStack3_map]
  norm_num

/-- C3 (counterexample): at current position `(0, 0, 100)` and destination
`(0, 0, 50)` the middle of the HIGH-tier (conservative) path flies at
altitude `50 = min(100 * 0.7, 50)`, not at the claimed safe altitude
`70 = 100 * 0.7` (which is not below the destination altitude `50`): the
code takes the minimum of the two values, not the maximum. -/
theorem conservative_path_cx :
    (((conservativePath (0, 0, 100) (0, 0, 50)).getD 12 0).2.2 = 50) ∧
    ((50 : ℚ) ≤ 100 * 0.7) ∧
    (((conservativePath (0, 0, 100) (0, 0, 50)).getD 12 0).2.2 ≠ 100 * 0.7) := by
  refine ⟨?_, by norm_num, ?_⟩ <;>
    simp [conservativePath, setSlice, linspace, columnStack3, List.range_succ,
      List.replicate_succ] <;> norm_num

/-- C3 (amended): for every current position and destination, the HIGH-tier
conservative path has 25 waypoints and its altitude profile is: a 5-point
linear ramp from the current altitude down to the safe altitude
`min(current_altitude * 0.7, destination_altitude)` (never above the
destination altitude), 15 middle waypoints exactly at that safe altitude,
and a 5-point linear ramp from the safe altitude to the destination
altitude. -/
theorem conservative_path_altitude_profile (cur dest : Point3) :
    (conservativePath cur dest).length = 25 ∧
    min (cur.2.2 * 0.7) dest.2.2 ≤ dest.2.2 ∧
    (conservativePath cur dest).map (fun wp => wp.2.2)
      = linspace cur.2.2 (min (cur.2.2 * 0.7) dest.2.2) 5
        ++ List.replicate 15 (min (cur.2.2 * 0.7) dest.2.2)
        ++ linspace (min (cur.2.2 * 0.7) dest.2.2) dest.2.2 5 := by
  refine ⟨?_, min_le_right _ _, ?_⟩ <;>
    simp [conservativePath, setSlice, linspace, columnStack3, List.range_succ,
      List.replicate_succ]

/-- C7: for every current position `(x, y, z)` and destination, the
CRITICAL-tier optimized trajectory is the emergency-landing path: exactly
10 waypoints, ending at `(x + 5, y + 5)` at altitude exactly 0, with the
altitude descending linearly (`z - z * i / 9` at waypoint `i`), and it
does not depend on the requested destination at all. -/
theorem critical_path_emergency_profile (x y z : ℚ) (dest dest' : Point3) :
    optimizeTrajectory (x, y, z) (some "CRITICAL") dest = emergencyLandingPath (x, y, z) ∧
    (emergencyLandingPath (x, y, z)).length = 10 ∧
    (emergencyLandingPath (x, y, z)).getD 9 0 = (x + 5, y + 5, 0) ∧
    (emergencyLandingPath (x, y, z)).map (fun wp => wp.2.2)
      = (List.range 10).map (fun i : ℕ => z - z * (i : ℚ) / 9) ∧
    optimizeTrajectory (x, y, z) (some "CRITICAL") dest
      = optimizeTrajectory (x, y, z) (some "CRITICAL") dest' := by
  refine ⟨rfl, ?_, ?_, ?_, rfl⟩ <;>
    simp [emergencyLandingPath, linspace, columnStack3, List.range_succ] <;>
    norm_num <;> ring_nf <;> norm_num

/-- C10: trajectory optimization is total over the risk-level field: for
every risk-assessment dict whose `risk_level` is not CRITICAL, HIGH or
MEDIUM — including any unrecognized tier string and a missing
`risk_level` key (`none`) — `optimize_trajectory` returns the same direct
20-waypoint straight-line interpolation from the current position to the
destination that the LOW tier receives. -/
theorem optimize_trajectory_defaults_to_optimal (cur dest : Point3) (ra : Option String)
    (h1 : ra ≠ some "CRITICAL") (h2 : ra ≠ some "HIGH") (h3 : ra ≠ some "MEDIUM") :
    optimizeTrajectory cur ra dest = optimalPath cur dest ∧
    optimizeTrajectory cur ra dest = optimizeTrajectory cur (some "LOW") dest ∧
    (optimalPath cur dest).length = 20 ∧
    optimalPath cur dest = (List.range 20).map (fun i : ℕ =>
      (cur.1 + (dest.1 - cur.1) * (i : ℚ) / 19,
       cur.2.1 + (dest.2.1 - cur.2.1) * (i : ℚ) / 19,
       cur.2.2 + (dest.2.2 - cur.2.2) * (i : ℚ) / 19)) := by
  have hmain : optimizeTrajectory cur ra dest = optimalPath cur dest := by
    cases ra with
    | none => simp [optimizeTrajectory]
    | some s =>
      have hs1 : s ≠ "CRITICAL" := fun h => h1 (by rw [h])
      have hs2 : s ≠ "HIGH" := fun h => h2 (by rw [h])
      have hs3 : s ≠ "MEDIUM" := fun h => h3 (by rw [h])
      simp [optimizeTrajectory, hs1, hs2, hs3]
  refine ⟨hmain, ?_, ?_, optimalPath_closed_form cur dest⟩
  · rw [hmain]; simp [optimizeTrajectory]
  · simp [optimalPath, columnStack3_length, linspace_length]

/-- C10 (witness): with the `risk_level` key missing the optimizer returns
the LOW-tier direct 20-waypoint path. -/
theorem optimize_trajectory_defaults_to_optimal_witness :
    optimizeTrajectory (0, 0, 50) none (10, 20, 30) = optimalPath (0, 0, 50) (10, 20, 30) ∧
    optimizeTrajectory (0, 0, 50) none (10, 20, 30)
      = optimizeTrajectory (0, 0, 50) (some "LOW") (10, 20, 30) ∧
    (optimalPath (0, 0, 50) (10, 20, 30)).length = 20 ∧
    optimalPath (0, 0, 50) (10, 20, 30) = (List.range 20).map (fun i : ℕ =>
      ((0 : ℚ) + ((10 : ℚ) - 0) * (i : ℚ) / 19,
       (0 : ℚ) + ((20 : ℚ) - 0) * (i : ℚ) / 19,
       (50 : ℚ) + ((30 : ℚ) - 50) * (i : ℚ) / 19)) :=
  optimize_trajectory_defaults_to_optimal (0, 0, 50) (10, 20, 30) none
    (by simp) (by simp) (by simp)

/-! ### Risk scorer (`anomaly_detection.py`, class `AnomalyDetector`) -/

/-- Embedding of the risk-tier mapping in
`AnomalyDetector.detect_failure_risk` (lines 97-105).  The mapping is a
pure function of the normalized anomaly score; it is stated generically
over a linear ordered field so that it can be applied both to exact
rational scores and to the real-valued sigmoid scores produced by
`predict`. -/
def riskLevelOf {α : Type} [LinearOrderedField α] (anomalyScore : α) : String :=
  if anomalyScore < 0.3 then "LOW"
  else if anomalyScore < 0.6 then "MEDIUM"
  else if anomalyScore < 0.8 then "HIGH"
  else "CRITICAL"

/-- Embedding of `AnomalyDetector._get_recommendation` (lines 114-123). -/
def getRecommendation (riskLevelStr : String) : String :=
  if riskLevelStr = "CRITICAL" then
    "IMMEDIATE ACTION: Land drone immediately and perform maintenance"
  else if riskLevelStr = "HIGH" then "Return to base for inspection"
  else if riskLevelStr = "MEDIUM" then "Monitor closely and reduce flight intensity"
  else "Continue normal operations"

/-- C4: the risk-tier mapping is a pure step function of the normalized
anomaly score with fixed boundaries 0.3, 0.6, 0.8: for every score `s` in
`[0, 1]`, `s < 0.3` gives LOW, `0.3 ≤ s < 0.6` gives MEDIUM,
`0.6 ≤ s < 0.8` gives HIGH, `s ≥ 0.8` gives CRITICAL; in particular the
eight scores 0.0, 0.29, 0.3, 0.59, 0.6, 0.79, 0.8, 1.0 map respectively to
LOW, LOW, MEDIUM, MEDIUM, HIGH, HIGH, CRITICAL, CRITICAL. -/
theorem risk_tier_step_function (s : ℚ) :
    (0 ≤ s → s < 0.3 → riskLevelOf s = "LOW") ∧
    (0.3 ≤ s → s < 0.6 → riskLevelOf s = "MEDIUM") ∧
    (0.6 ≤ s → s < 0.8 → riskLevelOf s = "HIGH") ∧
    (0.8 ≤ s → s ≤ 1 → riskLevelOf s = "CRITICAL") ∧
    riskLevelOf (0.0 : ℚ) = "LOW" ∧ riskLevelOf (0.29 : ℚ) = "LOW" ∧
    riskLevelOf (0.3 : ℚ) = "MEDIUM" ∧ riskLevelOf (0.59 : ℚ) = "MEDIUM" ∧
    riskLevelOf (0.6 : ℚ) = "HIGH" ∧ riskLevelOf (0.79 : ℚ) = "HIGH" ∧
    riskLevelOf (0.8 : ℚ) = "CRITICAL" ∧ riskLevelOf (1.0 : ℚ) = "CRITICAL" := by
  refine ⟨fun _ h => ?_, fun h1 h2 => ?_, fun h1 h2 => ?_, fun h1 _ => ?_,
    by norm_num [riskLevelOf], by norm_num [riskLevelOf], by norm_num [riskLevelOf],
    by norm_num [riskLevelOf], by norm_num [riskLevelOf], by norm_num [riskLevelOf],
    by norm_num [riskLevelOf], by norm_num [riskLevelOf]⟩
  · unfold riskLevelOf; rw [if_pos h]
  · unfold riskLevelOf; rw [if_neg (by linarith), if_pos h2]
  · unfold riskLevelOf; rw [if_neg (by linarith), if_neg (by linarith), if_pos h2]
  · unfold riskLevelOf
    rw [if_neg (by linarith), if_neg (by linarith), if_neg (by linarith)]

/-- C4 (witness): the step function evaluated with each hypothesis
discharged at a concrete score. -/
theorem risk_tier_step_function_witness :
    riskLevelOf (0.1 : ℚ) = "LOW" ∧ riskLevelOf (0.45 : ℚ) = "MEDIUM" ∧
    riskLevelOf (0.7 : ℚ) = "HIGH" ∧ riskLevelOf (0.9 : ℚ) = "CRITICAL" :=
  ⟨(risk_tier_step_function (0.1 : ℚ)).1 (by norm_num) (by norm_num),
   (risk_tier_step_function (0.45 : ℚ)).2.1 (by norm_num) (by norm_num),
   (risk_tier_step_function (0.7 : ℚ)).2.2.1 (by norm_num) (by norm_num),
   (risk_tier_step_function (0.9 : ℚ)).2.2.2.1 (by norm_num) (by norm_num)⟩

/-! ### Stress model (`backend/src/processing/stress_calculator.py`,
class `StressCalculator`, with the configuration fields it reads from
`backend/src/models/drone_config.py`).  Real-valued because the G-stress
curve uses `np.exp`.  Fields of `DroneConfig` that the stress calculator
never reads (identification, frame type, battery pack, aerodynamics,
performance limits other than wind) are omitted from the embedding. -/

/-- Embedding of `ArmConfig` restricted to the fields read by
`StressCalculator._calculate_arm_stress`. -/
structure ArmSpec where
  length_m : ℝ
  cross_section_area_m2 : ℝ
  max_bending_stress_mpa : ℝ

/-- Embedding of `MotorConfig` restricted to the field read via
`DroneConfig.total_max_thrust_n`. -/
structure MotorSpec where
  max_thrust_n : ℝ

/-- Embedding of `DroneConfig` restricted to the fields the stress
calculator reads. -/
structure DroneSpec where
  total_weight_kg : ℝ
  motors : List MotorSpec
  arms : List ArmSpec
  max_wind_speed_ms : ℝ

/-- Embedding of the `DroneConfig.num_motors` property. -/
def DroneSpec.num_motors (c : DroneSpec) : ℕ := c.motors.length

/-- Embedding of the `DroneConfig.total_max_thrust_n` property. -/
def DroneSpec.total_max_thrust_n (c : DroneSpec) : ℝ :=
  (c.motors.map (fun m => m.max_thrust_n)).sum

/-- Embedding of the `DroneConfig.hover_throttle_percent` property. -/
noncomputable def DroneSpec.hover_throttle_percent (c : DroneSpec) : ℝ :=
  if c.total_max_thrust_n = 0 then 0
  else c.total_weight_kg * 9.81 / c.total_max_thrust_n * 100

/-- Embedding of `StressCalculator._calculate_g_stress` (lines 60-71). -/
noncomputable def gStress (g_force : ℝ) : ℝ :=
  if g_force ≤ 1 then 0
  else min 100 (100 * (1 - Real.exp (-3 * ((g_force - 1) / 4))))

/-- Embedding of `StressCalculator._calculate_wind_stress` (lines 73-88). -/
noncomputable def windStress (c : DroneSpec) (wind_speed : ℝ) : ℝ :=
  if wind_speed ≤ 0 then 0
  else
    let wind_ratio := wind_speed / c.max_wind_speed_ms
    if wind_ratio < 0.5 then wind_ratio * 40
    else if wind_ratio < 0.8 then 20 + (wind_ratio - 0.5) * 100
    else 50 + (wind_ratio - 0.8) * 250

/-- Embedding of `StressCalculator._calculate_temperature_stress`
(lines 90-106). -/
noncomputable def temperatureStress (temperature : ℝ) : ℝ :=
  if 15 ≤ temperature ∧ temperature ≤ 35 then 0
  else
    let stress := if temperature < 15 then (15 - temperature) * 3
      else (temperature - 35) * 4
    min 100 (max 0 stress)

/-- Embedding of `StressCalculator._calculate_altitude_stress`
(lines 108-119). -/
noncomputable def altitudeStress (altitude : ℝ) : ℝ :=
  if altitude < 1000 then 0 else min 50 (altitude / 1000 * 5)

/-- Embedding of `StressCalculator._calculate_motor_stress` (lines 121-142). -/
noncomputable def motorStress (c : DroneSpec) (g_force temperature : ℝ) : ℝ :=
  let base_load := c.hover_throttle_percent / 100
  let g_load := g_force * base_load
  let throttle := min 100 (g_load * 100)
  let temp_factor := if temperature > 30 then 1 + (temperature - 30) * 0.02
    else if temperature < 10 then 1 + (10 - temperature) * 0.01
    else 1
  min 100 (throttle * temp_factor * 0.8)

/-- Embedding of `StressCalculator._calculate_arm_stress` (lines 144-165);
`1000000` is the source's `1e6` MPa conversion. -/
noncomputable def armStress (c : DroneSpec) (g_force : ℝ) : ℝ :=
  match c.arms with
  | [] => 0
  | arm :: _ =>
    let weight_force := c.total_weight_kg * 9.81 * g_force
    let force_per_arm := weight_force / (c.num_motors : ℝ)
    let bending_stress := force_per_arm * arm.length_m
      / (arm.cross_section_area_m2 * 1000000)
    let stress_percentage := bending_stress / arm.max_bending_stress_mpa * 100
    min 100 (max 0 stress_percentage)

/-- Embedding of `StressCalculator._calculate_battery_stress`
(lines 167-179). -/
noncomputable def batteryStress (temperature : ℝ) : ℝ :=
  if 20 ≤ temperature ∧ temperature ≤ 30 then 0
  else
    let stress := if temperature < 20 then (20 - temperature) * 2
      else (temperature - 30) * 3
    min 100 (max 0 stress)

/-- Result of `StressCalculator.calculate_flight_stress`: the returned dict
(lines 44-58; the nested `components` entry repeats the motor/arm/battery
values and is not duplicated here). -/
structure StressAssessment where
  overall_stress : ℝ
  g_stress : ℝ
  wind_stress : ℝ
  temperature_stress : ℝ
  altitude_stress : ℝ
  motor_stress : ℝ
  arm_stress : ℝ
  battery_stress : ℝ

/-- Embedding of `StressCalculator.calculate_flight_stress` (lines 11-58). -/
noncomputable def calculateFlightStress (c : DroneSpec) (g_force wind_speed
    air_temperature altitude : ℝ) : StressAssessment :=
  let g_stress := gStress g_force
  let wind_stress := windStress c wind_speed
  let temp_stress := temperatureStress air_temperature
  let altitude_stress := altitudeStress altitude
  let motor_stress := motorStress c g_force air_temperature
  let arm_stress := armStress c g_force
  let battery_stress := batteryStress air_temperature
  let overall_stress := g_stress * 0.4 + wind_stress * 0.2 + temp_stress * 0.15
    + motor_stress * 0.15 + arm_stress * 0.1
  { overall_stress := min 100 (max 0 overall_stress)
    g_stress := g_stress
    wind_stress := wind_stress
    temperature_stress := temp_stress
    altitude_stress := altitude_stress
    motor_stress := motor_stress
    arm_stress := arm_stress
    battery_stress := battery_stress }

/-- A quad-rotor specification used as concrete input: 2 kg craft with four
motors of 9.81 N maximum thrust each (hover throttle 50%) and no arm data. -/
def quadSpec : DroneSpec :=
  { total_weight_kg := 2
    motors := [⟨9.81⟩, ⟨9.81⟩, ⟨9.81⟩, ⟨9.81⟩]
    arms := []
    max_wind_speed_ms := 10 }

lemma quadSpec_hover_throttle : quadSpec.hover_throttle_percent = 50 := by
  rw [DroneSpec.hover_throttle_percent]
  rw [if_neg] <;> simp [DroneSpec.total_max_thrust_n, quadSpec] <;> norm_num

/-- C1 (counterexample): for the `quadSpec` drone specification the idle
baseline `stress(g=1, wind=0, temp=25, alt=0)` has overall stress
`6 = clamp(motor_stress * 0.15) = (50% hover throttle * 0.8) * 0.15`,
not 0: the motor-stress term is nonzero at hover. -/
theorem idle_stress_cx :
    (calculateFlightStress quadSpec 1 0 25 0).overall_stress = 6 ∧ (6 : ℝ) ≠ 0 := by
  refine ⟨?_, by norm_num⟩
  have hg : gStress 1 = 0 := by rw [gStress, if_pos le_rfl]
  have hw : windStress quadSpec 0 = 0 := by rw [windStress, if_pos le_rfl]
  have ht : temperatureStress 25 = 0 := by
    rw [temperatureStress, if_pos (by norm_num)]
  have hm : motorStress quadSpec 1 25 = 40 := by
    rw [motorStress, quadSpec_hover_throttle]; norm_num
  have ha : armStress quadSpec 1 = 0 := by
    simp only [armStress, quadSpec]
  rw [calculateFlightStress]
  dsimp only
  rw [hg, hw, ht, hm, ha]
  norm_num

/-- C1 (amended): for every drone specification, the idle baseline
`stress(g=1, wind=0, temp=25, alt=0)` zeroes the G-force, wind,
temperature, altitude and battery components, and its overall stress
equals `clamp(motor_stress * 0.15 + arm_stress * 0.1)` — which is 0 only
when the motor and arm stresses both vanish (e.g. zero hover throttle and
no arm data), not for every specification. -/
theorem idle_stress_baseline (c : DroneSpec) :
    (calculateFlightStress c 1 0 25 0).g_stress = 0 ∧
    (calculateFlightStress c 1 0 25 0).wind_stress = 0 ∧
    (calculateFlightStress c 1 0 25 0).temperature_stress = 0 ∧
    (calculateFlightStress c 1 0 25 0).altitude_stress = 0 ∧
    (calculateFlightStress c 1 0 25 0).battery_stress = 0 ∧
    (calculateFlightStress c 1 0 25 0).overall_stress
      = min 100 (max 0 (motorStress c 1 25 * 0.15 + armStress c 1 * 0.1)) := by
  rw [calculateFlightStress]
  simp only [gStress, windStress, temperatureStress, altitudeStress, batteryStress]
  norm_num

/-- C9 (counterexample): battery stress is 2 at 19 °C and 3 at 31 °C, so
the cold-side slope (2 per °C) is not half the heat-side slope
(3 per °C): `2 ≠ 3 / 2`. -/
theorem battery_stress_slope_cx :
    batteryStress 19 = 2 ∧ batteryStress 20 = 0 ∧ batteryStress 30 = 0 ∧
    batteryStress 31 = 3 ∧
    batteryStress 19 - batteryStress 20 ≠ (batteryStress 31 - batteryStress 30) / 2 := by
  have h19 : batteryStress 19 = 2 := by rw [batteryStress]; norm_num
  have h20 : batteryStress 20 = 0 := by rw [batteryStress]; norm_num
  have h30 : batteryStress 30 = 0 := by rw [batteryStress]; norm_num
  have h31 : batteryStress 31 = 3 := by rw [batteryStress]; norm_num
  refine ⟨h19, h20, h30, h31, ?_⟩
  rw [h19, h20, h30, h31]; norm_num

/-- C9 (amended): battery stress is 0 for every temperature inside the
20–30 °C band and a linear penalty outside it, capped at 100: 2 per °C
below 20 and 3 per °C above 30 — the cold-side slope is two-thirds of the
heat-side slope, not half. -/
theorem battery_stress_piecewise (t : ℝ) :
    (20 ≤ t → t ≤ 30 → batteryStress t = 0) ∧
    (t < 20 → batteryStress t = min 100 ((20 - t) * 2)) ∧
    (30 < t → batteryStress t = min 100 ((t - 30) * 3)) := by
  refine ⟨fun h1 h2 => ?_, fun h => ?_, fun h => ?_⟩
  · rw [batteryStress, if_pos ⟨h1, h2⟩]
  · rw [batteryStress, if_neg (by intro hc; linarith [hc.1])]
    dsimp only
    rw [if_pos h, max_eq_right (by nlinarith)]
  · rw [batteryStress, if_neg (by intro hc; linarith [hc.2])]
    dsimp only
    rw [if_neg (not_lt.2 (by linarith)), max_eq_right (by nlinarith)]

/-- C9 (witness): the piecewise form evaluated at 25 °C (inside the band),
10 °C (cold side) and 40 °C (heat side). -/
theorem battery_stress_piecewise_witness :
    batteryStress 25 = 0 ∧ batteryStress 10 = min 100 ((20 - 10) * 2) ∧
    batteryStress 40 = min 100 ((40 - 30) * 3) :=
  ⟨(battery_stress_piecewise 25).1 (by norm_num) (by norm_num),
   (battery_stress_piecewise 10).2.1 (by norm_num),
   (battery_stress_piecewise 40).2.2 (by norm_num)⟩

/-- A physically well-formed drone specification: non-negative weight and
motor thrusts, positive arm cross-sections and material limits, motors
present whenever arm data is (the source divides by the motor count
there), and a positive rated wind speed. -/
def DroneSpec.wellFormed (c : DroneSpec) : Prop :=
  0 ≤ c.total_weight_kg ∧ (∀ m ∈ c.motors, 0 ≤ m.max_thrust_n) ∧
  (∀ a ∈ c.arms,
    0 ≤ a.length_m ∧ 0 < a.cross_section_area_m2 ∧ 0 < a.max_bending_stress_mpa) ∧
  (c.arms ≠ [] → c.motors ≠ []) ∧ 0 < c.max_wind_speed_ms

lemma hover_throttle_nonneg (c : DroneSpec) (hw : 0 ≤ c.total_weight_kg)
    (hm : ∀ m ∈ c.motors, 0 ≤ m.max_thrust_n) : 0 ≤ c.hover_throttle_percent := by
  rw [DroneSpec.hover_throttle_percent]
  split_ifs with h
  · exact le_rfl
  · have hsum : 0 ≤ c.total_max_thrust_n := by
      rw [DroneSpec.total_max_thrust_n]
      exact List.sum_nonneg (by simpa using hm)
    have := mul_nonneg hw (by norm_num : (0:ℝ) ≤ 9.81)
    positivity

lemma gStress_nonneg (g : ℝ) : 0 ≤ gStress g := by
  rw [gStress]
  split_ifs with h
  · exact le_rfl
  · refine le_min (by norm_num) (mul_nonneg (by norm_num) ?_)
    have : Real.exp (-3 * ((g - 1) / 4)) ≤ 1 :=
      Real.exp_le_one_iff.mpr (by push_neg at h; nlinarith)
    linarith

lemma gStress_mono {g1 g2 : ℝ} (h : g1 ≤ g2) : gStress g1 ≤ gStress g2 := by
  by_cases ha : g1 ≤ 1
  · rw [gStress, if_pos ha]; exact gStress_nonneg g2
  · rw [gStress, gStress, if_neg ha, if_neg (fun hb => ha (h.trans hb))]
    refine min_le_min le_rfl (mul_le_mul_of_nonneg_left ?_ (by norm_num))
    have := Real.exp_le_exp.2 (show -3 * ((g2 - 1) / 4) ≤ -3 * ((g1 - 1) / 4) by nlinarith)
    linarith

lemma motorStress_mono (c : DroneSpec) (hb : 0 ≤ c.hover_throttle_percent)
    (t : ℝ) {g1 g2 : ℝ} (hg : 0 ≤ g1) (h : g1 ≤ g2) :
    motorStress c g1 t ≤ motorStress c g2 t := by
  rw [motorStress, motorStress]
  have htf : (0:ℝ) ≤ (if t > 30 then 1 + (t - 30) * 0.02
      else if t < 10 then 1 + (10 - t) * 0.01 else 1) := by
    split_ifs <;> nlinarith
  refine min_le_min le_rfl ?_
  refine mul_le_mul_of_nonneg_right (mul_le_mul_of_nonneg_right ?_ htf) (by norm_num)
  refine min_le_min le_rfl (mul_le_mul_of_nonneg_right ?_ (by norm_num))
  exact mul_le_mul_of_nonneg_right h (by positivity)

lemma armStress_mono (c : DroneSpec) (hw : 0 ≤ c.total_weight_kg)
    (harm : ∀ a ∈ c.arms,
      0 ≤ a.length_m ∧ 0 < a.cross_section_area_m2 ∧ 0 < a.max_bending_stress_mpa)
    (hmm : c.arms ≠ [] → c.motors ≠ [])
    {g1 g2 : ℝ} (hg : 0 ≤ g1) (h : g1 ≤ g2) :
    armStress c g1 ≤ armStress c g2 := by
  rcases he : c.arms with _ | ⟨arm, rest⟩
  · simp [armStress, he]
  · obtain ⟨hlen, harea, hbend⟩ := harm arm (he ▸ List.mem_cons_self arm rest)
    have hnm : (0:ℝ) < (c.num_motors : ℝ) := by
      have : c.motors ≠ [] := hmm (by rw [he]; simp)
      have : 0 < c.motors.length := List.length_pos.mpr this
      rw [DroneSpec.num_motors]
      exact_mod_cast this
    simp only [armStress, he]
    refine min_le_min le_rfl (max_le_max le_rfl ?_)
    have hA : (0:ℝ) < arm.cross_section_area_m2 * 1000000 := by positivity
    have hW : (0:ℝ) ≤ c.total_weight_kg * 9.81 := by positivity
    gcongr

/-- C8: with wind speed, air temperature, altitude and a well-formed drone
specification held fixed, the overall stress score is monotonically
non-decreasing in g-force for every g ≥ 1: if 1 ≤ g1 ≤ g2 then
overall_stress(g1) ≤ overall_stress(g2). -/
theorem overall_stress_monotone_in_g (c : DroneSpec) (hwf : c.wellFormed)
    (wind temp alt : ℝ) {g1 g2 : ℝ} (hg1 : 1 ≤ g1) (h12 : g1 ≤ g2) :
    (calculateFlightStress c g1 wind temp alt).overall_stress
      ≤ (calculateFlightStress c g2 wind temp alt).overall_stress := by
  obtain ⟨hw, hm, harm, hmm, _⟩ := hwf
  have hb := hover_throttle_nonneg c hw hm
  have hg0 : (0:ℝ) ≤ g1 := by linarith
  have hG := gStress_mono h12
  have hM := motorStress_mono c hb temp hg0 h12
  have hA := armStress_mono c hw harm hmm hg0 h12
  rw [calculateFlightStress, calculateFlightStress]
  dsimp only
  exact min_le_min le_rfl (max_le_max le_rfl (by nlinarith))

/-- C8 (witness): for the concrete quad-rotor specification, idle
conditions and g-forces 1 ≤ 2, the overall stress is non-decreasing. -/
theorem overall_stress_monotone_in_g_witness :
    (calculateFlightStress quadSpec 1 0 25 0).overall_stress
      ≤ (calculateFlightStress quadSpec 2 0 25 0).overall_stress :=
  overall_stress_monotone_in_g quadSpec
    ⟨by norm_num [quadSpec], by simp [quadSpec]; norm_num,
     by simp [quadSpec], by simp [quadSpec], by norm_num [quadSpec]⟩
    0 25 0 (by norm_num) (by norm_num)

/-! ### Anomaly detector and orchestrator (`anomaly_detection.py`,
`digital_twin_engine.py`).  The trained scikit-learn objects
(`StandardScaler`, `IsolationForest`) are external collaborators; their
fitted transform / predict / score functions are opaque function fields
of the detector, and `train` performs the feature-count validation and
flips the trained flag exactly as `AnomalyDetector.train` does. -/

/-- Single risk assessment produced by
`AnomalyDetector.detect_failure_risk` (lines 85-112). -/
structure RiskAssessment where
  is_anomaly : Bool
  anomaly_score : ℝ
  risk_level : String
  recommendation : String

/-- Embedding of `AnomalyDetector` (lines 14-35): the trained state plus
the externally fitted model functions. -/
structure AnomalyDetector where
  is_trained : Bool
  scalerTransform : List ℝ → List ℝ
  forestPredict : List ℝ → Int
  forestScoreSamples : List ℝ → ℝ

/-- The detector's fixed feature-name list (lines 32-35). -/
def featureNames : List String :=
  ["battery_level", "temperature", "vibration", "altitude", "speed", "motor_current"]

/-- A numpy 2-D training matrix, embedded by its shape and entry function;
`AnomalyDetector.train` reads only `shape[1]`. -/
structure TrainData where
  n_samples : ℕ
  n_features : ℕ
  entries : ℕ → ℕ → ℝ

/-- Embedding of `AnomalyDetector.train` (lines 37-52): validates the
feature count, then fits scaler and forest (external calls) and marks the
model trained. -/
def AnomalyDetector.train (d : AnomalyDetector) (data : TrainData) :
    Except String AnomalyDetector :=
  if data.n_features ≠ featureNames.length then
    .error ("Expected " ++ toString featureNames.length ++ " features, got "
      ++ toString data.n_features)
  else .ok { d with is_trained := true }

/-- Embedding of `AnomalyDetector.predict` (lines 54-83): scale with the
stored statistics, read the forest's prediction and raw score, negate the
raw score and squash it through the logistic function into `[0, 1]`. -/
noncomputable def AnomalyDetector.predict (d : AnomalyDetector) (sample : List ℝ) :
    Except String (Int × ℝ) :=
  if d.is_trained = false then .error "Model must be trained before prediction"
  else
    let scaled := d.scalerTransform sample
    let prediction := d.forestPredict scaled
    let anomaly_score := -(d.forestScoreSamples scaled)
    .ok (prediction, 1 / (1 + Real.exp (-anomaly_score)))

/-- Embedding of `AnomalyDetector.detect_failure_risk` (lines 85-112). -/
noncomputable def detectFailureRisk (d : AnomalyDetector) (sample : List ℝ) :
    Except String RiskAssessment :=
  (d.predict sample).map (fun pr =>
    { is_anomaly := pr.1 == -1
      anomaly_score := pr.2
      risk_level := riskLevelOf pr.2
      recommendation := getRecommendation (riskLevelOf pr.2) })

/-- Mean of a list of reals (embeds `np.mean`). -/
noncomputable def listMean (xs : List ℝ) : ℝ := xs.sum / xs.length

/-- Population variance of a list of reals (embeds `np.var`). -/
noncomputable def listVar (xs : List ℝ) : ℝ :=
  listMean (xs.map (fun x => (x - listMean xs) ^ 2))

/-- Maximum of a list of reals (embeds `np.max` on a non-empty list). -/
def listMax (xs : List ℝ) : ℝ :=
  match xs with
  | [] => 0
  | h :: t => t.foldl max h

/-- Metrics dict returned by
`AdaptivePathPlanner.calculate_path_metrics` (lines 146-182). -/
structure PathMetrics where
  total_distance : ℝ
  total_altitude_change : ℝ
  smoothness : ℝ
  num_waypoints : ℕ

/-- A waypoint cast to real coordinates. -/
noncomputable def toR3 (p : Point3) : ℝ × ℝ × ℝ := ((p.1 : ℝ), (p.2.1 : ℝ), (p.2.2 : ℝ))

/-- Dot product on real 3-vectors. -/
noncomputable def dot3 (u v : ℝ × ℝ × ℝ) : ℝ :=
  u.1 * v.1 + u.2.1 * v.2.1 + u.2.2 * v.2.2

/-- Embedding of `AdaptivePathPlanner.calculate_path_metrics`
(lines 146-182): total Euclidean length, summed absolute altitude deltas,
and smoothness `1 / (1 + var(turn angles))` with the `1e-10` epsilon and
cosine clipping of the source (paths of at most 2 waypoints get
smoothness 1). -/
noncomputable def calculatePathMetrics (path : List Point3) : PathMetrics :=
  let pts := path.map toR3
  let vectors := List.zipWith (fun b a => (b.1 - a.1, b.2.1 - a.2.1, b.2.2 - a.2.2))
    pts.tail pts
  let distances := vectors.map (fun v => Real.sqrt (dot3 v v))
  let altitude_changes := vectors.map (fun v => |v.2.2|)
  let angles := List.zipWith (fun u v =>
      Real.arccos (max (-1) (min 1 (dot3 u v / (Real.sqrt (dot3 u u) * Real.sqrt (dot3 v v) + 1e-10)))))
    vectors vectors.tail
  { total_distance := distances.sum
    total_altitude_change := altitude_changes.sum
    smoothness := if path.length > 2 then 1 / (1 + listVar angles) else 1
    num_waypoints := path.length }

/-- State of `DigitalTwinEngine` (lines 15-45): the `current_state` dict,
the four parallel `history` lists and the two lifecycle flags. -/
structure Engine where
  detector : AnomalyDetector
  current_position : Point3
  current_velocity : Point3
  current_telemetry : Option (List ℝ)
  current_risk : Option RiskAssessment
  current_path : Option (List Point3)
  history_telemetry : List (List ℝ)
  history_risk : List RiskAssessment
  history_positions : List Point3
  history_timestamps : List ℝ
  is_initialized : Bool
  mission_active : Bool

/-- Embedding of `DigitalTwinEngine.__init__` (lines 18-45) around a given
detector. -/
def mkEngine (d : AnomalyDetector) : Engine :=
  { detector := d
    current_position := (0, 0, 0)
    current_velocity := (0, 0, 0)
    current_telemetry := none
    current_risk := none
    current_path := none
    history_telemetry := []
    history_risk := []
    history_positions := []
    history_timestamps := []
    is_initialized := false
    mission_active := false }

/-- Embedding of `DigitalTwinEngine.initialize` (lines 47-64): train the
detector; on success mark the engine initialized and return `true`, on
failure leave it unchanged and return `false`. -/
def initEngine (e : Engine) (training_data : TrainData) : Engine × Bool :=
  match e.detector.train training_data with
  | .ok d => ({ e with detector := d, is_initialized := true }, true)
  | .error _ => (e, false)

/-- Mission-start info dict returned by `start_mission` (lines 95-101). -/
structure MissionStart where
  status : String
  start_position : Point3
  end_position : Point3
  initial_path : List Point3
  path_metrics : PathMetrics

/-- Embedding of `DigitalTwinEngine.start_mission` (lines 66-101). -/
noncomputable def startMission (e : Engine) (start_position end_position : Point3) :
    Except String (Engine × MissionStart) :=
  if e.is_initialized = false then
    .error "Engine must be initialized before starting mission"
  else
    let initial_path := planInitialPath start_position end_position
    .ok ({ e with current_position := start_position
                  current_path := some initial_path
                  mission_active := true },
      { status := "ACTIVE"
        start_position := start_position
        end_position := end_position
        initial_path := initial_path
        path_metrics := calculatePathMetrics initial_path })

/-- Update-response dict returned by `update_telemetry` (lines 134-150). -/
structure UpdateResponse where
  timestamp : ℝ
  position : Point3
  risk_assessment : RiskAssessment
  path_update_required : Bool
  new_path : Option (List Point3)

/-- Embedding of `DigitalTwinEngine.update_telemetry` (lines 103-150):
guarded only by `is_initialized`; assesses risk, overwrites the current
state, appends to all four history lists (`now` embeds
`datetime.now()`), and flags a recommended path update for MEDIUM, HIGH
and CRITICAL tiers. -/
noncomputable def updateTelemetry (e : Engine) (telemetry : List ℝ)
    (current_position : Point3) (now : ℝ) : Except String (Engine × UpdateResponse) :=
  if e.is_initialized = false then .error "Engine must be initialized"
  else
    match detectFailureRisk e.detector telemetry with
    | .error msg => .error msg
    | .ok risk =>
      .ok ({ e with current_telemetry := some telemetry
                    current_position := current_position
                    current_risk := some risk
                    history_telemetry := e.history_telemetry ++ [telemetry]
                    history_risk := e.history_risk ++ [risk]
                    history_positions := e.history_positions ++ [current_position]
                    history_timestamps := e.history_timestamps ++ [now] },
        { timestamp := now
          position := current_position
          risk_assessment := risk
          path_update_required := ["MEDIUM", "HIGH", "CRITICAL"].contains risk.risk_level
          new_path := none })

/-- Replan info dict returned by `replan_trajectory` (lines 183-187). -/
structure ReplanInfo where
  new_path : List Point3
  path_metrics : PathMetrics
  risk_level : String

/-- Embedding of `DigitalTwinEngine.replan_trajectory` (lines 152-187):
requires a prior risk assessment, then optimizes with the last-known tier
(the assessment dict always carries its `risk_level` key, hence `some`). -/
noncomputable def replanTrajectory (e : Engine) (current_position destination : Point3) :
    Except String (Engine × ReplanInfo) :=
  match e.current_risk with
  | none => .error "No risk assessment available"
  | some risk =>
    let new_path := optimizeTrajectory current_position (some risk.risk_level) destination
    .ok ({ e with current_path := some new_path },
      { new_path := new_path
        path_metrics := calculatePathMetrics new_path
        risk_level := risk.risk_level })

/-- Per-tier counts and score statistics of `get_system_status`
(lines 204-215), reused by `stop_mission`. -/
structure RiskSummary where
  low_count : ℕ
  medium_count : ℕ
  high_count : ℕ
  critical_count : ℕ
  avg_anomaly_score : ℝ
  max_anomaly_score : ℝ

/-- Embedding of the `risk_summary` computation (lines 204-215). -/
noncomputable def riskSummaryOf (l : List RiskAssessment) : RiskSummary :=
  { low_count := l.countP (fun r => r.risk_level = "LOW")
    medium_count := l.countP (fun r => r.risk_level = "MEDIUM")
    high_count := l.countP (fun r => r.risk_level = "HIGH")
    critical_count := l.countP (fun r => r.risk_level = "CRITICAL")
    avg_anomaly_score := listMean (l.map (fun r => r.anomaly_score))
    max_anomaly_score := listMax (l.map (fun r => r.anomaly_score)) }

/-- Mission summary returned by `stop_mission` (lines 228-236). -/
structure StopSummary where
  total_telemetry_updates : ℕ
  final_position : Point3
  final_risk : Option RiskAssessment
  risk_summary : Option RiskSummary

/-- Embedding of `DigitalTwinEngine.stop_mission` (lines 219-238): clears
only the `mission_active` flag and reports a summary; the detector, the
initialized flag and the history are untouched. -/
noncomputable def stopMission (e : Engine) : Engine × StopSummary :=
  ({ e with mission_active := false },
   { total_telemetry_updates := e.history_timestamps.length
     final_position := e.current_position
     final_risk := e.current_risk
     risk_summary := if e.history_risk.isEmpty then none
       else some (riskSummaryOf e.history_risk) })

/-- Discriminator for successful `Except` results. -/
def exceptIsOk {α : Type} (x : Except String α) : Bool :=
  match x with
  | .ok _ => true
  | .error _ => false

/-- A concrete detector whose externally fitted functions are the identity
scaler, the constant normal prediction and a zero raw score. -/
noncomputable def dummyDetector : AnomalyDetector :=
  { is_trained := false
    scalerTransform := fun s => s
    forestPredict := fun _ => 1
    forestScoreSamples := fun _ => 0 }

/-- A 1-sample, 6-feature all-zero training matrix. -/
def trainData6 : TrainData := { n_samples := 1, n_features := 6, entries := fun _ _ => 0 }

/-- The engine right after a successful `initialize`. -/
noncomputable def engineInit : Engine := (initEngine (mkEngine dummyDetector) trainData6).1

/-- The engine with a mission started. -/
noncomputable def engineActive : Engine :=
  match startMission engineInit (0, 0, 0) (10, 10, 10) with
  | .ok (e, _) => e
  | .error _ => engineInit

/-- The engine after `stop_mission`. -/
noncomputable def engineStopped : Engine := (stopMission engineActive).1

/-- C2 (counterexample): on an initialized engine, `update_telemetry`
succeeds before any `start_mission` call; and after `start_mission`
followed by `stop_mission` (mission no longer active), it still succeeds
and appends a history entry — the code never checks `mission_active`. -/
theorem update_telemetry_lifecycle_cx :
    exceptIsOk (updateTelemetry engineInit [0, 0, 0, 0, 0, 0] (1, 1, 1) 0) = true ∧
    engineStopped.mission_active = false ∧
    engineStopped.is_initialized = true ∧
    Except.map (fun r => r.1.history_timestamps.length)
      (updateTelemetry engineStopped [0, 0, 0, 0, 0, 0] (2, 2, 2) 1) = .ok 1 := by
  refine ⟨rfl, rfl, rfl, rfl⟩

/-- C2 (amended): a telemetry update requires only an initialized engine,
not an active mission: on an engine that is not initialized it fails with
the `Engine must be initialized` error; on an initialized engine with a
trained detector it succeeds — whether or not a mission is active — and
appends one history entry while leaving the mission flag unchanged; and
`stop_mission` clears only the mission flag (the initialized flag,
detector and history survive), so every `update_telemetry` call after
`stop_mission` still succeeds and keeps mutating the history. -/
theorem update_telemetry_requires_initialization_only (e : Engine) (t : List ℝ)
    (p : Point3) (now : ℝ) :
    (e.is_initialized = false →
      updateTelemetry e t p now = .error "Engine must be initialized") ∧
    (e.is_initialized = true → e.detector.is_trained = true →
      exceptIsOk (updateTelemetry e t p now) = true ∧
      Except.map (fun r => r.1.history_timestamps.length) (updateTelemetry e t p now)
        = .ok (e.history_timestamps.length + 1) ∧
      Except.map (fun r => r.1.mission_active) (updateTelemetry e t p now)
        = .ok e.mission_active) ∧
    (stopMission e).1.is_initialized = e.is_initialized ∧
    (stopMission e).1.detector = e.detector ∧
    (stopMission e).1.history_timestamps = e.history_timestamps ∧
    (stopMission e).1.mission_active = false := by
  refine ⟨fun h => ?_, fun h1 h2 => ?_, rfl, rfl, rfl, rfl⟩
  · rw [updateTelemetry, if_pos h]
  · rw [updateTelemetry, if_neg (by simp [h1])]
    rw [detectFailureRisk, AnomalyDetector.predict, if_neg (by simp [h2])]
    refine ⟨rfl, ?_, rfl⟩
    simp [Except.map]

/-- C2 (witness): the amended lifecycle statement at concrete engines: a
fresh engine rejects the update, and the stopped (initialized) engine
accepts it and grows the history. -/
theorem update_telemetry_requires_initialization_only_witness :
    updateTelemetry (mkEngine dummyDetector) [] (0, 0, 0) 0
      = .error "Engine must be initialized" ∧
    (exceptIsOk (updateTelemetry engineStopped [] (0, 0, 0) 2) = true ∧
      Except.map (fun r => r.1.history_timestamps.length)
        (updateTelemetry engineStopped [] (0, 0, 0) 2)
        = .ok (engineStopped.history_timestamps.length + 1) ∧
      Except.map (fun r => r.1.mission_active) (updateTelemetry engineStopped [] (0, 0, 0) 2)
        = .ok engineStopped.mission_active) ∧
    (stopMission engineStopped).1.is_initialized = engineStopped.is_initialized :=
  ⟨(update_telemetry_requires_initialization_only (mkEngine dummyDetector) [] (0, 0, 0) 0).1 rfl,
   (update_telemetry_requires_initialization_only engineStopped [] (0, 0, 0) 2).2.1 rfl rfl,
   (update_telemetry_requires_initialization_only engineStopped [] (0, 0, 0) 2).2.2.1⟩

/-! ### Feature pipeline (`backend/src/ml/feature_engineering.py`,
class `UniversalFeatureExtractor`).  A pandas column is embedded as a
`List Cell` with `none` for `NaN`; a data frame as a named column list
(all frames here share the record index, so `pd.concat(axis=1)` is list
append).  Divisions embed `x / 0` as `0`: in the source a zero time delta
produces an infinity that `_handle_missing_values` later replaces with 0.
The 10% sensor-detection threshold `count > len(df) * 0.1` is embedded
integrally as `10 * count > len(df)`. -/

/-- A pandas cell: `none` embeds `NaN`. -/
abbrev Cell : Type := Option ℝ

/-- A pandas data frame: named columns over a shared index. -/
abbrev Frame : Type := List (String × List Cell)

/-- Embedding of `TelemetryRecord` (`data_ingestion/log_parser_base.py`)
restricted to the twenty fields `_records_to_dataframe` reads; every
sensor field is optional (`None` = sensor absent). -/
structure TelemetryRec where
  timestamp : ℝ
  accel_x : Option ℝ
  accel_y : Option ℝ
  accel_z : Option ℝ
  gyro_x : Option ℝ
  gyro_y : Option ℝ
  gyro_z : Option ℝ
  latitude : Option ℝ
  longitude : Option ℝ
  altitude : Option ℝ
  ground_speed : Option ℝ
  vertical_speed : Option ℝ
  roll : Option ℝ
  pitch : Option ℝ
  yaw : Option ℝ
  battery_voltage : Option ℝ
  battery_current : Option ℝ
  battery_remaining : Option ℝ
  wind_speed : Option ℝ
  air_temperature : Option ℝ

/-- Embedding of `FeatureConfig` (lines 7-26). -/
structure FeatureConfig where
  window_size_seconds : ℝ
  rolling_window_size : ℤ
  include_statistical : Bool
  include_frequency : Bool
  include_derivative : Bool
  include_flight_dynamics : Bool
  include_energy_metrics : Bool
  include_stress_indicators : Bool
  fill_method : String

/-- The dataclass defaults of `FeatureConfig`. -/
def defaultFeatureConfig : FeatureConfig :=
  { window_size_seconds := 1
    rolling_window_size := 10
    include_statistical := true
    include_frequency := true
    include_derivative := true
    include_flight_dynamics := true
    include_energy_metrics := true
    include_stress_indicators := true
    fill_method := "interpolate" }

/-- NaN-propagating binary cell operation. -/
def cellMap2 (f : ℝ → ℝ → ℝ) (a b : Cell) : Cell :=
  match a, b with
  | some x, some y => some (f x y)
  | _, _ => none

/-- Embedding of `Series.fillna(0)`. -/
def fillna0 (xs : List Cell) : List Cell := xs.map (fun c => some (c.getD 0))

/-- Forward fill with a running previous value (embeds
`Series.fillna(method='ffill')`; leading missing cells stay missing). -/
def ffillFrom (prev : Cell) : List Cell → List Cell
  | [] => []
  | some v :: t => some v :: ffillFrom (some v) t
  | none :: t => prev :: ffillFrom prev t

/-- Embedding of `Series.fillna(method='ffill')`. -/
def ffill (xs : List Cell) : List Cell := ffillFrom none xs

/-- Embedding of `Series.diff()`: first cell `NaN`, then consecutive
differences with NaN propagation. -/
def diffCol (xs : List Cell) : List Cell :=
  match xs with
  | [] => []
  | _ :: t => none :: List.zipWith (cellMap2 (fun b a => b - a)) t xs

/-- Elementwise division of two columns (embeds `series / series`; a zero
divisor yields an infinity in the source which the final cleaning step
turns into 0 — the embedding's division is already 0 there). -/
noncomputable def cellDivCol (xs ys : List Cell) : List Cell :=
  List.zipWith (cellMap2 (fun a b => a / b)) xs ys

/-- Embedding of `Series.cumsum()`: missing cells stay missing, the
running sum skips them. -/
def cumsumFrom (acc : ℝ) : List Cell → List Cell
  | [] => []
  | none :: t => none :: cumsumFrom acc t
  | some v :: t => some (acc + v) :: cumsumFrom (acc + v) t

/-- Embedding of `Series.cumsum()`. -/
def cumsumCol (xs : List Cell) : List Cell := cumsumFrom 0 xs

/-- The present values inside the length-`w` window ending at index `i`
(embeds the fixed-size rolling window). -/
def rollingVals (w : ℕ) (xs : List Cell) (i : ℕ) : List ℝ :=
  ((xs.take (i + 1)).drop (i + 1 - w)).filterMap id

/-- Embedding of `Series.rolling(window=w, min_periods=1).mean()`. -/
noncomputable def rollingMeanCol (w : ℕ) (xs : List Cell) : List Cell :=
  (List.range xs.length).map (fun i =>
    let vs := rollingVals w xs i
    if vs.length = 0 then none else some (vs.sum / vs.length))

/-- Embedding of `Series.rolling(window=w, min_periods=1).std()` (sample
standard deviation, missing with fewer than two present values). -/
noncomputable def rollingStdCol (w : ℕ) (xs : List Cell) : List Cell :=
  (List.range xs.length).map (fun i =>
    let vs := rollingVals w xs i
    if vs.length < 2 then none
    else some (Real.sqrt ((vs.map (fun v => (v - vs.sum / vs.length) ^ 2)).sum
      / (vs.length - 1 : ℝ))))

/-- Embedding of `Series.rolling(window=w, min_periods=1).max()`. -/
def rollingMaxCol (w : ℕ) (xs : List Cell) : List Cell :=
  (List.range xs.length).map (fun i =>
    match rollingVals w xs i with
    | [] => none
    | h :: t => some (t.foldl max h))

/-- Three-column pointwise combination of real-valued columns. -/
def map3 (f : ℝ → ℝ → ℝ → ℝ) (xs ys zs : List ℝ) : List ℝ :=
  List.zipWith (fun x yz => f x yz.1 yz.2) xs (List.zipWith (fun y z => (y, z)) ys zs)

/-- Number of present cells (embeds `Series.notna().sum()`). -/
def countSome (xs : List Cell) : ℕ := xs.countP (fun c => c.isSome)

/-- The projection of one record field as a column. -/
def colOf (f : TelemetryRec → Option ℝ) (rs : List TelemetryRec) : List Cell := rs.map f

/-- A record field with missing values replaced by zero, as reals (embeds
`df[field].fillna(0)`). -/
def colOf0 (f : TelemetryRec → Option ℝ) (rs : List TelemetryRec) : List ℝ :=
  rs.map (fun r => (f r).getD 0)

/-- Embedding of `df['time_delta']` (line 121): consecutive timestamp
differences in seconds, `NaN` at the first record. -/
def timeDeltaCol (rs : List TelemetryRec) : List Cell :=
  diffCol (rs.map (fun r => some r.timestamp))

/-- Embedding of `_detect_available_sensors` (lines 125-148), as the set of
detected family names. -/
def availableSensors (rs : List TelemetryRec) : List String :=
  let n := rs.length
  (if 10 * (countSome (colOf (fun r => r.accel_x) rs)
      + countSome (colOf (fun r => r.accel_y) rs)
      + countSome (colOf (fun r => r.accel_z) rs)) > n then ["imu"] else [])
  ++ (if 10 * (countSome (colOf (fun r => r.latitude) rs)
      + countSome (colOf (fun r => r.longitude) rs)) > n then ["gps"] else [])
  ++ (if 10 * (countSome (colOf (fun r => r.roll) rs)
      + countSome (colOf (fun r => r.pitch) rs)
      + countSome (colOf (fun r => r.yaw) rs)) > n then ["attitude"] else [])
  ++ (if 10 * countSome (colOf (fun r => r.battery_voltage) rs) > n then ["battery"] else [])
  ++ (if 10 * countSome (colOf (fun r => r.altitude) rs) > n then ["altitude"] else [])

/-- Embedding of `_extract_time_features` (lines 150-166): sample rate
(`1 / time_delta` with zero deltas first replaced by `NaN`), time since
start (guarded by `len(df) > 0` in the source) and the sequence index. -/
noncomputable def timeFeatures (rs : List TelemetryRec) : Frame :=
  let td := timeDeltaCol rs
  [("sample_rate_hz", td.map (fun c =>
    (c.bind (fun x => if x = 0 then none else some x)).map (fun x => 1 / x)))]
  ++ (if rs.length > 0 then
    [("time_since_start",
      rs.map (fun r => some (r.timestamp - ((rs.head?.map (fun h => h.timestamp)).getD 0))))]
    else [])
  ++ [("sequence_index", (List.range rs.length).map (fun i : ℕ => some (i : ℝ)))]

/-- Embedding of `_extract_imu_features` (lines 168-215): g-force magnitude
and per-axis g-forces over zero-filled accelerations, the gyro block when
any gyro value is present, jerk (`diff / time_delta`) when derivative
features are enabled, and 10-sample rolling vibration when the batch has
more than 10 records. -/
noncomputable def imuFeatures (cfg : FeatureConfig) (rs : List TelemetryRec) : Frame :=
  let td := timeDeltaCol rs
  let ax := colOf (fun r => r.accel_x) rs
  let ay := colOf (fun r => r.accel_y) rs
  let az := colOf (fun r => r.accel_z) rs
  let gx := colOf (fun r => r.gyro_x) rs
  let gy := colOf (fun r => r.gyro_y) rs
  let gz := colOf (fun r => r.gyro_z) rs
  [("g_force", (map3 (fun a b c => Real.sqrt (a ^ 2 + b ^ 2 + c ^ 2) / 9.81)
      (colOf0 (fun r => r.accel_x) rs) (colOf0 (fun r => r.accel_y) rs)
      (colOf0 (fun r => r.accel_z) rs)).map some),
   ("g_force_x", (colOf0 (fun r => r.accel_x) rs).map (fun a => some (a / 9.81))),
   ("g_force_y", (colOf0 (fun r => r.accel_y) rs).map (fun a => some (a / 9.81))),
   ("g_force_z", (colOf0 (fun r => r.accel_z) rs).map (fun a => some (a / 9.81)))]
  ++ (if 0 < countSome gx + countSome gy + countSome gz then
    [("rotation_rate", (map3 (fun a b c => Real.sqrt (a ^ 2 + b ^ 2 + c ^ 2))
        (colOf0 (fun r => r.gyro_x) rs) (colOf0 (fun r => r.gyro_y) rs)
        (colOf0 (fun r => r.gyro_z) rs)).map some),
     ("gyro_x_rate", (colOf0 (fun r => r.gyro_x) rs).map some),
     ("gyro_y_rate", (colOf0 (fun r => r.gyro_y) rs).map some),
     ("gyro_z_rate", (colOf0 (fun r => r.gyro_z) rs).map some)] else [])
  ++ (if cfg.include_derivative then
    [("jerk_x", cellDivCol (diffCol ax) td),
     ("jerk_y", cellDivCol (diffCol ay) td),
     ("jerk_z", cellDivCol (diffCol az) td),
     ("jerk_magnitude", (map3 (fun a b c => Real.sqrt (a ^ 2 + b ^ 2 + c ^ 2))
        ((cellDivCol (diffCol ax) td).map (fun c => c.getD 0))
        ((cellDivCol (diffCol ay) td).map (fun c => c.getD 0))
        ((cellDivCol (diffCol az) td).map (fun c => c.getD 0))).map some)] else [])
  ++ (if rs.length > 10 then
    [("vibration_x", rollingStdCol 10 ax),
     ("vibration_y", rollingStdCol 10 ay),
     ("vibration_z", rollingStdCol 10 az)] else [])

/-- Embedding of `_extract_gps_features` (lines 217-246): speed and its
rate, altitude and its rate, 3-D speed when both are present, and the
flat-earth distance increments and cumulative distance when some row has
both coordinates. -/
noncomputable def gpsFeatures (rs : List TelemetryRec) : Frame :=
  let td := timeDeltaCol rs
  let gs := colOf (fun r => r.ground_speed) rs
  let alt := colOf (fun r => r.altitude) rs
  (if 0 < countSome gs then
    [("ground_speed", fillna0 gs), ("speed_change_rate", cellDivCol (diffCol gs) td)]
    else [])
  ++ (if 0 < countSome alt then
    [("altitude", fillna0 alt), ("altitude_rate", cellDivCol (diffCol alt) td)]
    else [])
  ++ (if 0 < countSome alt ∧ 0 < countSome gs then
    [("speed_3d", List.zipWith (cellMap2 (fun g a => Real.sqrt (g ^ 2 + a ^ 2)))
      (fillna0 gs) (cellDivCol (diffCol alt) td))] else [])
  ++ (if rs.any (fun r => r.latitude.isSome && r.longitude.isSome) then
    [("distance_delta", List.zipWith (cellMap2 (fun a b => Real.sqrt (a ^ 2 + b ^ 2) * 111000))
        (fillna0 (diffCol (colOf (fun r => r.latitude) rs)))
        (fillna0 (diffCol (colOf (fun r => r.longitude) rs)))),
     ("distance_traveled", cumsumCol (List.zipWith
        (cellMap2 (fun a b => Real.sqrt (a ^ 2 + b ^ 2) * 111000))
        (fillna0 (diffCol (colOf (fun r => r.latitude) rs)))
        (fillna0 (diffCol (colOf (fun r => r.longitude) rs)))))] else [])

/-- Embedding of `_extract_attitude_features` (lines 248-267). -/
noncomputable def attitudeFeatures (cfg : FeatureConfig) (rs : List TelemetryRec) : Frame :=
  let td := timeDeltaCol rs
  [("roll", fillna0 (colOf (fun r => r.roll) rs)),
   ("pitch", fillna0 (colOf (fun r => r.pitch) rs)),
   ("yaw", fillna0 (colOf (fun r => r.yaw) rs))]
  ++ (if cfg.include_derivative then
    [("roll_rate", cellDivCol (diffCol (colOf (fun r => r.roll) rs)) td),
     ("pitch_rate", cellDivCol (diffCol (colOf (fun r => r.pitch) rs)) td),
     ("yaw_rate", cellDivCol (diffCol (colOf (fun r => r.yaw) rs)) td)] else [])
  ++ [("tilt_angle", List.zipWith (fun r p => some (Real.sqrt (r ^ 2 + p ^ 2)))
      (colOf0 (fun r => r.roll) rs) (colOf0 (fun r => r.pitch) rs))]

/-- Embedding of `_extract_battery_features` (lines 269-291): forward-filled
voltage with its drop rate, zero-filled current with power when voltage is
also present, and forward-filled remaining percentage. -/
noncomputable def batteryFeatures (rs : List TelemetryRec) : Frame :=
  let td := timeDeltaCol rs
  let v := colOf (fun r => r.battery_voltage) rs
  let cur := colOf (fun r => r.battery_current) rs
  let rem := colOf (fun r => r.battery_remaining) rs
  (if 0 < countSome v then
    [("battery_voltage", ffill v), ("voltage_drop_rate", cellDivCol (diffCol v) td)]
    else [])
  ++ (if 0 < countSome cur then
    [("battery_current", fillna0 cur)]
    ++ (if 0 < countSome v then
      [("power_watts", List.zipWith (cellMap2 (fun a b => a * b)) (ffill v) (fillna0 cur))]
      else []) else [])
  ++ (if 0 < countSome rem then [("battery_remaining_pct", ffill rem)] else [])

/-- Embedding of `_extract_motion_features` (lines 293-321): squared ground
speed as kinetic-energy indicator, and maneuver intensity (g-force times
rotation magnitude, or bare g-force without gyro data) when the IMU family
was detected. -/
noncomputable def motionFeatures (rs : List TelemetryRec) (sensors : List String) : Frame :=
  let gs := colOf (fun r => r.ground_speed) rs
  let gForce := map3 (fun a b c => Real.sqrt (a ^ 2 + b ^ 2 + c ^ 2) / 9.81)
    (colOf0 (fun r => r.accel_x) rs) (colOf0 (fun r => r.accel_y) rs)
    (colOf0 (fun r => r.accel_z) rs)
  (if 0 < countSome gs then
    [("kinetic_energy_indicator", (colOf0 (fun r => r.ground_speed) rs).map
      (fun g => some (g ^ 2)))] else [])
  ++ (if sensors.contains "imu" then
    (if 0 < countSome (colOf (fun r => r.gyro_x) rs)
        + countSome (colOf (fun r => r.gyro_y) rs)
        + countSome (colOf (fun r => r.gyro_z) rs) then
      [("maneuver_intensity", (List.zipWith (fun g rot => g * rot) gForce
        (map3 (fun a b c => Real.sqrt (a ^ 2 + b ^ 2 + c ^ 2))
          (colOf0 (fun r => r.gyro_x) rs) (colOf0 (fun r => r.gyro_y) rs)
          (colOf0 (fun r => r.gyro_z) rs))).map some)]
     else [("maneuver_intensity", gForce.map some)]) else [])

/-- Lowercasing by characters (embeds `str.lower()`; the byte-position
`String.toLower` of the core library is not used because the embedding
works over the character list). -/
def strToLower (s : String) : String := String.mk (s.toList.map Char.toLower)

/-- Substring membership on strings (embeds Python's `kw in name`). -/
def containsSub (hay needle : String) : Bool :=
  (List.range (hay.length + 1)).any (fun i => needle.toList.isPrefixOf (hay.toList.drop i))

/-- The rolling-statistics keyword list of `_extract_statistical_features`
(lines 332-335). -/
def keywordList : List String := ["g_force", "rotation", "speed", "altitude", "vibration", "jerk"]

/-- Embedding of `_extract_statistical_features` (lines 323-354): rolling
mean / std / max over the configured window for at most ten key columns
selected by name keywords.  The configured window is handed straight to
`Series.rolling(window, min_periods=1)`, which rejects every window
smaller than 1 with a `ValueError` (negative windows fail the sign check,
window 0 fails `min_periods <= window`; the embedding reports the
min-periods message for both). -/
noncomputable def statisticalFeatures (w : ℤ) (fr : Frame) : Except String Frame :=
  let key_cols := (fr.filter (fun c => keywordList.any (fun k => containsSub (strToLower c.1) k))).take 10
  if key_cols.isEmpty then .ok []
  else if w < 1 then .error ("ValueError: min_periods 1 must be <= window " ++ toString w)
  else .ok (key_cols.flatMap (fun c =>
    [(c.1 ++ "_rolling_mean", rollingMeanCol w.toNat c.2),
     (c.1 ++ "_rolling_std", rollingStdCol w.toNat c.2),
     (c.1 ++ "_rolling_max", rollingMaxCol w.toNat c.2)]))

/-- Positional linear interpolation of one column with flat boundary
extrapolation (embeds
`interpolate(method='linear', limit_direction='both')`). -/
noncomputable def interpolateCol (xs : List Cell) : List Cell :=
  (List.range xs.length).map (fun i =>
    match xs.getD i none with
    | some v => some v
    | none =>
      match ((List.range (i + 1)).filterMap
          (fun j => (xs.getD j none).map (fun v => (j, v)))).getLast?,
        (((List.range xs.length).drop i).filterMap
          (fun j => (xs.getD j none).map (fun v => (j, v)))).head? with
      | some (j, a), some (k, b) => some (a + (b - a) * ((i : ℝ) - j) / ((k : ℝ) - j))
      | some (_, a), none => some a
      | none, some (_, b) => some b
      | none, none => none)

/-- Backward fill (embeds `Series.fillna(method='bfill')`). -/
def bfill (xs : List Cell) : List Cell := (ffill xs.reverse).reverse

/-- Embedding of `_handle_missing_values` (lines 356-372): fill according
to the configured method, then zero-fill the residue (the infinity
replacement is vacuous here — see the section comment on division). -/
noncomputable def handleMissingValues (cfg : FeatureConfig) (fr : Frame) : Frame :=
  fr.map (fun c => (c.1,
    fillna0 (if cfg.fill_method = "interpolate" then interpolateCol c.2
      else if cfg.fill_method = "forward" then bfill (ffill c.2)
      else if cfg.fill_method = "zero" then fillna0 c.2
      else c.2)))

/-- Embedding of `UniversalFeatureExtractor.extract_features` (lines
40-90): fails like the source on an empty batch (`pd.DataFrame([])` has no
`timestamp` column), detects sensor families, concatenates the per-family
frames, appends rolling statistics when enabled, and cleans missing
values. -/
noncomputable def extractFeatures (cfg : FeatureConfig) (rs : List TelemetryRec) :
    Except String Frame :=
  if rs.isEmpty then .error "KeyError: timestamp"
  else
    let sensors := availableSensors rs
    let base := timeFeatures rs
      ++ (if sensors.contains "imu" then imuFeatures cfg rs else [])
      ++ (if sensors.contains "gps" then gpsFeatures rs else [])
      ++ (if sensors.contains "attitude" then attitudeFeatures cfg rs else [])
      ++ (if sensors.contains "battery" then batteryFeatures rs else [])
      ++ motionFeatures rs sensors
    match (if cfg.include_statistical then statisticalFeatures cfg.rolling_window_size base
      else .ok []) with
    | .error msg => .error msg
    | .ok stat => .ok (handleMissingValues cfg (base ++ stat))

/-- Row count of a frame (a pandas frame's index length; all columns here
share the record index). -/
def frameNumRows (fr : Frame) : ℕ := (fr.map (fun c => c.2.length)).foldr max 0

@[simp] lemma fillna0_length (xs : List Cell) : (fillna0 xs).length = xs.length := by
  simp [fillna0]

@[simp] lemma ffillFrom_length (p : Cell) (xs : List Cell) :
    (ffillFrom p xs).length = xs.length := by
  induction xs generalizing p with
  | nil => rfl
  | cons c t ih => cases c <;> simp [ffillFrom, ih]

@[simp] lemma ffill_length (xs : List Cell) : (ffill xs).length = xs.length := by
  simp [ffill]

@[simp] lemma bfill_length (xs : List Cell) : (bfill xs).length = xs.length := by
  simp [bfill]

@[simp] lemma diffCol_length (xs : List Cell) : (diffCol xs).length = xs.length := by
  cases xs with
  | nil => rfl
  | cons c t => simp only [diffCol, List.length_cons, List.length_zipWith]; omega

@[simp] lemma cellDivCol_length (xs ys : List Cell) :
    (cellDivCol xs ys).length = min xs.length ys.length := by
  simp [cellDivCol]

@[simp] lemma cumsumFrom_length (a : ℝ) (xs : List Cell) :
    (cumsumFrom a xs).length = xs.length := by
  induction xs generalizing a with
  | nil => rfl
  | cons c t ih => cases c <;> simp [cumsumFrom, ih]

@[simp] lemma cumsumCol_length (xs : List Cell) : (cumsumCol xs).length = xs.length := by
  simp [cumsumCol]

@[simp] lemma rollingMeanCol_length (w : ℕ) (xs : List Cell) :
    (rollingMeanCol w xs).length = xs.length := by
  simp [rollingMeanCol]

@[simp] lemma rollingStdCol_length (w : ℕ) (xs : List Cell) :
    (rollingStdCol w xs).length = xs.length := by
  simp [rollingStdCol]

@[simp] lemma rollingMaxCol_length (w : ℕ) (xs : List Cell) :
    (rollingMaxCol w xs).length = xs.length := by
  simp [rollingMaxCol]

@[simp] lemma map3_length (f : ℝ → ℝ → ℝ → ℝ) (xs ys zs : List ℝ) :
    (map3 f xs ys zs).length = min xs.length (min ys.length zs.length) := by
  simp [map3]

@[simp] lemma colOf_length (f : TelemetryRec → Option ℝ) (rs : List TelemetryRec) :
    (colOf f rs).length = rs.length := by
  simp [colOf]

@[simp] lemma colOf0_length (f : TelemetryRec → Option ℝ) (rs : List TelemetryRec) :
    (colOf0 f rs).length = rs.length := by
  simp [colOf0]

@[simp] lemma timeDeltaCol_length (rs : List TelemetryRec) :
    (timeDeltaCol rs).length = rs.length := by
  simp [timeDeltaCol]

@[simp] lemma interpolateCol_length (xs : List Cell) :
    (interpolateCol xs).length = xs.length := by
  simp [interpolateCol]

lemma forall_mem_ite_nil {α : Type} {P : α → Prop} {p : Prop} [Decidable p] {A : List α}
    (hA : ∀ c ∈ A, P c) : ∀ c ∈ (if p then A else []), P c := by
  split_ifs with h
  · exact hA
  · intro c hc
    exact absurd hc (List.not_mem_nil c)

lemma timeFeatures_len (rs : List TelemetryRec) :
    ∀ c ∈ timeFeatures rs, c.2.length = rs.length := by
  unfold timeFeatures
  refine List.forall_mem_append.2 ⟨List.forall_mem_append.2 ⟨?_, ?_⟩, ?_⟩
  · intro c hc; fin_cases hc <;> simp
  · exact forall_mem_ite_nil (by intro c hc; fin_cases hc <;> simp)
  · intro c hc; fin_cases hc <;> simp

lemma imuFeatures_len (cfg : FeatureConfig) (rs : List TelemetryRec) :
    ∀ c ∈ imuFeatures cfg rs, c.2.length = rs.length := by
  unfold imuFeatures
  refine List.forall_mem_append.2 ⟨List.forall_mem_append.2
    ⟨List.forall_mem_append.2 ⟨?_, ?_⟩, ?_⟩, ?_⟩
  · intro c hc; fin_cases hc <;> simp
  · exact forall_mem_ite_nil (by intro c hc; fin_cases hc <;> simp)
  · exact forall_mem_ite_nil (by intro c hc; fin_cases hc <;> simp)
  · exact forall_mem_ite_nil (by intro c hc; fin_cases hc <;> simp)

lemma gpsFeatures_len (rs : List TelemetryRec) :
    ∀ c ∈ gpsFeatures rs, c.2.length = rs.length := by
  unfold gpsFeatures
  refine List.forall_mem_append.2 ⟨List.forall_mem_append.2
    ⟨List.forall_mem_append.2 ⟨?_, ?_⟩, ?_⟩, ?_⟩ <;>
    exact forall_mem_ite_nil (by intro c hc; fin_cases hc <;> simp)

lemma attitudeFeatures_len (cfg : FeatureConfig) (rs : List TelemetryRec) :
    ∀ c ∈ attitudeFeatures cfg rs, c.2.length = rs.length := by
  unfold attitudeFeatures
  refine List.forall_mem_append.2 ⟨List.forall_mem_append.2 ⟨?_, ?_⟩, ?_⟩
  · intro c hc; fin_cases hc <;> simp
  · exact forall_mem_ite_nil (by intro c hc; fin_cases hc <;> simp)
  · intro c hc; fin_cases hc <;> simp

lemma batteryFeatures_len (rs : List TelemetryRec) :
    ∀ c ∈ batteryFeatures rs, c.2.length = rs.length := by
  unfold batteryFeatures
  refine List.forall_mem_append.2 ⟨List.forall_mem_append.2 ⟨?_, ?_⟩, ?_⟩
  · exact forall_mem_ite_nil (by intro c hc; fin_cases hc <;> simp)
  · refine forall_mem_ite_nil (List.forall_mem_append.2 ⟨?_, ?_⟩)
    · intro c hc; fin_cases hc <;> simp
    · exact forall_mem_ite_nil (by intro c hc; fin_cases hc <;> simp)
  · exact forall_mem_ite_nil (by intro c hc; fin_cases hc <;> simp)

lemma motionFeatures_len (rs : List TelemetryRec) (sensors : List String) :
    ∀ c ∈ motionFeatures rs sensors, c.2.length = rs.length := by
  unfold motionFeatures
  refine List.forall_mem_append.2 ⟨?_, ?_⟩
  · exact forall_mem_ite_nil (by intro c hc; fin_cases hc <;> simp)
  · split_ifs with h1 h2
    · intro c hc; fin_cases hc <;> simp
    · intro c hc; fin_cases hc <;> simp
    · intro c hc; exact absurd hc (List.not_mem_nil c)

lemma statisticalFeatures_cases (w : ℤ) (fr : Frame) (n : ℕ)
    (h : ∀ c ∈ fr, c.2.length = n) :
    (∃ st, statisticalFeatures w fr = .ok st ∧ ∀ c ∈ st, c.2.length = n) ∨
    (w < 1 ∧ statisticalFeatures w fr
      = .error ("ValueError: min_periods 1 must be <= window " ++ toString w)) := by
  unfold statisticalFeatures
  dsimp only
  split_ifs with h1 h2
  · exact Or.inl ⟨[], rfl, fun c hc => absurd hc (List.not_mem_nil c)⟩
  · exact Or.inr ⟨h2, rfl⟩
  · refine Or.inl ⟨_, rfl, ?_⟩
    intro c hc
    simp only [List.mem_flatMap] at hc
    obtain ⟨kc, hkc, hc⟩ := hc
    have hkfr : kc ∈ fr := List.mem_of_mem_filter (List.mem_of_mem_take hkc)
    have hlen := h kc hkfr
    fin_cases hc <;> simp [hlen]

lemma handleMissingValues_len (cfg : FeatureConfig) (fr : Frame) (n : ℕ)
    (h : ∀ c ∈ fr, c.2.length = n) :
    ∀ c ∈ handleMissingValues cfg fr, c.2.length = n := by
  unfold handleMissingValues
  intro c hc
  simp only [List.mem_map] at hc
  obtain ⟨orig, horig, rfl⟩ := hc
  have hlen := h orig horig
  dsimp only
  split_ifs <;> simp [hlen]

lemma timeFeatures_ne_nil (rs : List TelemetryRec) : timeFeatures rs ≠ [] := by
  unfold timeFeatures
  simp

lemma foldr_max_const {n : ℕ} :
    ∀ l : List ℕ, l ≠ [] → (∀ x ∈ l, x = n) → l.foldr max 0 = n := by
  intro l
  induction l with
  | nil => intro h _; exact absurd rfl h
  | cons a t ih =>
    intro _ hall
    have ha : a = n := hall a (List.mem_cons_self a t)
    cases t with
    | nil => simp [ha]
    | cons b t2 =>
      have ht := ih (by simp) (fun x hx => hall x (List.mem_cons_of_mem a hx))
      simp only [List.foldr] at ht ⊢
      simp [ha, ht]

lemma frameNumRows_eq (fr : Frame) (n : ℕ) (hne : fr ≠ [])
    (h : ∀ c ∈ fr, c.2.length = n) : frameNumRows fr = n := by
  unfold frameNumRows
  apply foldr_max_const
  · simpa using hne
  · intro x hx
    simp only [List.mem_map] at hx
    obtain ⟨c, hc, rfl⟩ := hx
    exact h c hc

lemma extractFeatures_cases (cfg : FeatureConfig) (rs : List TelemetryRec)
    (hne : rs ≠ []) :
    (∃ fr, extractFeatures cfg rs = .ok fr ∧ fr ≠ [] ∧ ∀ c ∈ fr, c.2.length = rs.length) ∨
    (cfg.rolling_window_size < 1 ∧ extractFeatures cfg rs
      = .error ("ValueError: min_periods 1 must be <= window "
        ++ toString cfg.rolling_window_size)) := by
  have hbaseLit : ∀ c ∈ (timeFeatures rs
      ++ (if (availableSensors rs).contains "imu" then imuFeatures cfg rs else [])
      ++ (if (availableSensors rs).contains "gps" then gpsFeatures rs else [])
      ++ (if (availableSensors rs).contains "attitude" then attitudeFeatures cfg rs else [])
      ++ (if (availableSensors rs).contains "battery" then batteryFeatures rs else [])
      ++ motionFeatures rs (availableSensors rs)), c.2.length = rs.length :=
    List.forall_mem_append.2 ⟨List.forall_mem_append.2 ⟨List.forall_mem_append.2
      ⟨List.forall_mem_append.2 ⟨List.forall_mem_append.2 ⟨timeFeatures_len rs,
      forall_mem_ite_nil (imuFeatures_len cfg rs)⟩,
      forall_mem_ite_nil (gpsFeatures_len rs)⟩,
      forall_mem_ite_nil (attitudeFeatures_len cfg rs)⟩,
      forall_mem_ite_nil (batteryFeatures_len rs)⟩,
      motionFeatures_len rs (availableSensors rs)⟩
  have hbneLit : (timeFeatures rs
      ++ (if (availableSensors rs).contains "imu" then imuFeatures cfg rs else [])
      ++ (if (availableSensors rs).contains "gps" then gpsFeatures rs else [])
      ++ (if (availableSensors rs).contains "attitude" then attitudeFeatures cfg rs else [])
      ++ (if (availableSensors rs).contains "battery" then batteryFeatures rs else [])
      ++ motionFeatures rs (availableSensors rs)) ≠ [] := by
    simp only [ne_eq, List.append_eq_nil]
    intro h
    exact timeFeatures_ne_nil rs h.1.1.1.1.1
  unfold extractFeatures
  rw [if_neg (by simpa using hne)]
  dsimp only
  generalize hb : (timeFeatures rs
      ++ (if (availableSensors rs).contains "imu" then imuFeatures cfg rs else [])
      ++ (if (availableSensors rs).contains "gps" then gpsFeatures rs else [])
      ++ (if (availableSensors rs).contains "attitude" then attitudeFeatures cfg rs else [])
      ++ (if (availableSensors rs).contains "battery" then batteryFeatures rs else [])
      ++ motionFeatures rs (availableSensors rs)) = base
  have hbase : ∀ c ∈ base, c.2.length = rs.length := hb ▸ hbaseLit
  have hbne : base ≠ [] := hb ▸ hbneLit
  cases hinc : cfg.include_statistical with
  | false =>
    rw [if_neg (by simp)]
    refine Or.inl ⟨_, rfl, ?_, ?_⟩
    · simp [handleMissingValues, hbne]
    · exact handleMissingValues_len cfg _ _ (List.forall_mem_append.2
        ⟨hbase, fun c hc => absurd hc (List.not_mem_nil c)⟩)
  | true =>
    rw [if_pos rfl]
    rcases statisticalFeatures_cases cfg.rolling_window_size base rs.length hbase with
      ⟨st, hst, hstlen⟩ | ⟨hlt, herr⟩
    · rw [hst]
      refine Or.inl ⟨_, rfl, ?_, ?_⟩
      · simp [handleMissingValues, hbne]
      · exact handleMissingValues_len cfg _ _ (List.forall_mem_append.2 ⟨hbase, hstlen⟩)
    · rw [herr]
      exact Or.inr ⟨hlt, rfl⟩

/-- A telemetry record carrying only a timestamp (no sensor present). -/
def blankRec (ts : ℝ) : TelemetryRec :=
  { timestamp := ts
    accel_x := none, accel_y := none, accel_z := none
    gyro_x := none, gyro_y := none, gyro_z := none
    latitude := none, longitude := none, altitude := none
    ground_speed := none, vertical_speed := none
    roll := none, pitch := none, yaw := none
    battery_voltage := none, battery_current := none, battery_remaining := none
    wind_speed := none, air_temperature := none }

/-- A telemetry record with accelerometer data (IMU family detected). -/
def accelRec (ts : ℝ) : TelemetryRec :=
  { blankRec ts with accel_x := some 0, accel_y := some 0, accel_z := some 10 }

/-- The default configuration with the rolling window set to 0 (smaller
than 1). -/
def cfgWindow0 : FeatureConfig := { defaultFeatureConfig with rolling_window_size := 0 }

/-- C5 (counterexample): with a configured rolling-window size of 0
(smaller than 1), feature extraction does not fail with a `ConfigError`
for every batch: on a batch with no sensor data (hence no rolling key
columns) it succeeds outright, and on a batch with accelerometer data it
fails with the rolling library's `ValueError`, a different error — no
`ConfigError` exists anywhere in the code. -/
theorem feature_window_cx :
    exceptIsOk (extractFeatures cfgWindow0 [blankRec 0, blankRec 1]) = true ∧
    extractFeatures cfgWindow0 [accelRec 0, accelRec 1]
      = .error "ValueError: min_periods 1 must be <= window 0" := by
  exact ⟨rfl, rfl⟩

/-- C5 (amended): feature extraction never validates the rolling-window
size and has no `ConfigError`: on a non-empty batch, a window of at least
1 always succeeds; a window smaller than 1 either still succeeds (when no
rolling key columns are selected, e.g. no sensor data) or fails with the
rolling library's `ValueError` about `min_periods`; and every possible
extraction failure on a non-empty batch is that `ValueError`. -/
theorem feature_window_no_config_error (cfg : FeatureConfig) (rs : List TelemetryRec)
    (hne : rs ≠ []) :
    (1 ≤ cfg.rolling_window_size → exceptIsOk (extractFeatures cfg rs) = true) ∧
    (cfg.rolling_window_size < 1 →
      exceptIsOk (extractFeatures cfg rs) = true ∨
      extractFeatures cfg rs = .error ("ValueError: min_periods 1 must be <= window "
        ++ toString cfg.rolling_window_size)) ∧
    (∀ msg, extractFeatures cfg rs = .error msg →
      msg = "ValueError: min_periods 1 must be <= window "
        ++ toString cfg.rolling_window_size) := by
  rcases extractFeatures_cases cfg rs hne with ⟨fr, hfr, _, _⟩ | ⟨hlt, herr⟩
  · refine ⟨fun _ => ?_, fun _ => Or.inl ?_, fun msg hmsg => ?_⟩
    · rw [hfr]; rfl
    · rw [hfr]; rfl
    · rw [hfr] at hmsg; exact absurd hmsg (by simp)
  · refine ⟨fun hge => absurd hlt (by omega), fun _ => Or.inr herr, fun msg hmsg => ?_⟩
    rw [herr] at hmsg
    exact (Except.error.inj hmsg).symm

/-- C5 (witness): the amended statement applied at a sensor-less two-record
batch with window 0 (extraction succeeds) and at the default window 10
(extraction succeeds), plus the error-message conjunct at the
accelerometer batch. -/
theorem feature_window_no_config_error_witness :
    exceptIsOk (extractFeatures cfgWindow0 [blankRec 0, blankRec 1]) = true ∧
    exceptIsOk (extractFeatures defaultFeatureConfig [blankRec 0, blankRec 1]) = true ∧
    ("ValueError: min_periods 1 must be <= window 0"
      = "ValueError: min_periods 1 must be <= window "
        ++ toString cfgWindow0.rolling_window_size) :=
  ⟨by
    rcases (feature_window_no_config_error cfgWindow0 [blankRec 0, blankRec 1]
        (by simp)).2.1 (by norm_num [cfgWindow0, defaultFeatureConfig]) with h | h
    · exact h
    · exfalso
      have hok : exceptIsOk (extractFeatures cfgWindow0 [blankRec 0, blankRec 1]) = true := rfl
      rw [h] at hok
      simp [exceptIsOk] at hok,
   (feature_window_no_config_error defaultFeatureConfig [blankRec 0, blankRec 1]
      (by simp)).1 (by norm_num [defaultFeatureConfig]),
   (feature_window_no_config_error cfgWindow0 [accelRec 0, accelRec 1] (by simp)).2.2
      "ValueError: min_periods 1 must be <= window 0" rfl⟩

/-- C6: for every non-empty, time-ordered telemetry batch and every
configuration whose rolling window is valid (at least 1, as the default
10 is), extraction succeeds and the returned feature table has exactly one
row per input record: every column's length equals the input record count
(no row is ever dropped) and the frame's row count equals the record
count, regardless of which sensor families are detected. -/
theorem extract_features_row_count (cfg : FeatureConfig) (rs : List TelemetryRec)
    (hne : rs ≠ []) (hsorted : (rs.map (fun r => r.timestamp)).Sorted (· ≤ ·))
    (hw : 1 ≤ cfg.rolling_window_size) :
    Except.map (fun fr => fr.all (fun c => c.2.length == rs.length))
      (extractFeatures cfg rs) = .ok true ∧
    Except.map frameNumRows (extractFeatures cfg rs) = .ok rs.length := by
  rcases extractFeatures_cases cfg rs hne with ⟨fr, hfr, hfne, hlen⟩ | ⟨hlt, _⟩
  · rw [hfr]
    constructor
    · simp only [Except.map]
      congr 1
      rw [List.all_eq_true]
      intro c hc
      simpa using hlen c hc
    · simp only [Except.map]
      rw [frameNumRows_eq fr rs.length hfne hlen]
  · exact absurd hw (by omega)

/-- C6 (witness): a single-record sensor-less batch under the default
configuration yields a one-row table. -/
theorem extract_features_row_count_witness :
    Except.map (fun fr => fr.all (fun c => c.2.length == ([blankRec 0].length)))
      (extractFeatures defaultFeatureConfig [blankRec 0]) = .ok true ∧
    Except.map frameNumRows (extractFeatures defaultFeatureConfig [blankRec 0])
      = .ok ([blankRec 0].length) :=
  extract_features_row_count defaultFeatureConfig [blankRec 0] (by simp)
    (by simp) (by norm_num [defaultFeatureConfig])
